import Mathlib

/-!
Verification of the zelfhosted conversational backend
(`server/fastapi/graph.py`, `server/fastapi/tools/__init__.py`).

The development shallowly embeds:
  * `_post_process_tool_result` (graph.py lines 112-147): JSON payloads are
    modelled by the inductive `J`; the outcome of Python's `json.loads` is
    passed in as an `Option J` (`none` models a `json.JSONDecodeError`);
    Python runtime errors (`KeyError`, `AttributeError`, `TypeError`) are
    modelled by the `Except PyErr` monad.
  * `tool_node` (graph.py lines 58-109): the per-call location injection,
    registry lookup, execution (as an oracle function) and result
    accumulation.  A `.error` outcome models an uncaught Python exception:
    in LangGraph a node that raises produces no state update, so no tool
    messages are appended and `iteration_count` is not incremented.
  * the compiled orchestration graph (graph.py lines 249-297) as a small-step
    transition relation `GStep` over `GState`.
  * parts that exist in this repository only through their unit tests
    (`tests/test_graph.py` imports `_truncate`, `SYSTEM_PROMPT`, `supervisor`,
    `MAX_SUPERVISOR_TURNS` ... from a more advanced `graph.py` variant that is
    not part of the source tree); these are modelled from the spec and are
    marked `Modelled from the spec:` in their doc comments.
-/

/-- A JSON value, as produced by Python's `json.loads`.  Objects keep their
field order as a list of key/value pairs. -/
inductive J where
  | null : J
  | bool (b : Bool) : J
  | num (q : Rat) : J
  | str (s : String) : J
  | arr (xs : List J) : J
  | obj (fields : List (String × J)) : J

/-- Python runtime errors that the embedded code can raise. -/
inductive PyErr where
  | keyError (key : String)
  | attributeError (attr : String)
  | typeError (msg : String)
deriving DecidableEq

/-- Events emitted to the LangGraph stream writer by
`_post_process_tool_result` (graph.py lines 121-126 and 136-142). -/
inductive StreamEvent where
  | youtubeEmbed (videoId title channel : J)
  | spotifyEmbed (contentType id name artist : J)

/-- First-match association lookup, the behaviour of indexing a Python dict
represented as an ordered field list. -/
def assocGet? {β : Type} : List (String × β) → String → Option β
  | [], _ => none
  | (k', v) :: rest, k => if k' = k then some v else assocGet? rest k

/-- Python `d.get(k, dflt)`: raises `AttributeError` when `d` is not a dict. -/
def jDictGet (d : J) (k : String) (dflt : J) : Except PyErr J :=
  match d with
  | .obj fields => .ok ((assocGet? fields k).getD dflt)
  | _ => .error (.attributeError "get")

/-- Python `d[k]` for a string key: `KeyError` when the key is absent,
`TypeError` when `d` is not subscriptable by a string. -/
def jIndex (d : J) (k : String) : Except PyErr J :=
  match d with
  | .obj fields =>
    match assocGet? fields k with
    | some v => .ok v
    | none => .error (.keyError k)
  | .str _ => .error (.typeError "string indices must be integers")
  | _ => .error (.typeError "not subscriptable")

/-- Python `for x in d`: lists yield their elements, strings their
characters, dicts their keys; anything else raises `TypeError`. -/
def jIter (d : J) : Except PyErr (List J) :=
  match d with
  | .arr xs => .ok xs
  | .str s => .ok (s.toList.map (fun c => J.str (String.singleton c)))
  | .obj fields => .ok (fields.map (fun p => J.str p.1))
  | _ => .error (.typeError "not iterable")

/-- Sequential effectful map: the body of a Python `for` loop that can raise;
the first raise aborts the whole loop. -/
def seqE {α β : Type} (f : α → Except PyErr β) : List α → Except PyErr (List β)
  | [] => .ok []
  | a :: rest =>
    match f a with
    | .error e => .error e
    | .ok b =>
      match seqE f rest with
      | .error e => .error e
      | .ok bs => .ok (b :: bs)

/-- One `youtube_embed` event (graph.py lines 120-126): `video["id"]`,
`video["title"]`, `video.get("channel", "")`. -/
def youtubeEmbedEvent (video : J) : Except PyErr StreamEvent :=
  match jIndex video "id" with
  | .error e => .error e
  | .ok vid =>
    match jIndex video "title" with
    | .error e => .error e
    | .ok ttl =>
      match jDictGet video "channel" (J.str "") with
      | .error e => .error e
      | .ok ch => .ok (.youtubeEmbed vid ttl ch)

/-- One `spotify_embed` event (graph.py lines 135-142): `item["type"]`,
`item["id"]`, `item["name"]`, `item.get("artist", item.get("owner", ""))`. -/
def spotifyEmbedEvent (item : J) : Except PyErr StreamEvent :=
  match jIndex item "type" with
  | .error e => .error e
  | .ok ty =>
    match jIndex item "id" with
    | .error e => .error e
    | .ok i =>
      match jIndex item "name" with
      | .error e => .error e
      | .ok nm =>
        match jDictGet item "owner" (J.str "") with
        | .error e => .error e
        | .ok ownerVal =>
          match jDictGet item "artist" ownerVal with
          | .error e => .error e
          | .ok art => .ok (.spotifyEmbed ty i nm art)

/-- graph.py lines 112-147, `_post_process_tool_result`.  `parsed` is the
outcome of `json.loads(result_str)` (`none` = `json.JSONDecodeError`, which is
the only exception the source catches).  Returns the text handed to the model
(as a JSON value, since `result_data.get("text", ...)` may be any value)
together with the embed events written to the stream. -/
def _post_process_tool_result (tool_name : String) (parsed : Option J)
    (result_str : String) : Except PyErr (J × List StreamEvent) :=
  if tool_name = "search_youtube_song" then
    match parsed with
    | none => .ok (J.str result_str, [])
    | some d =>
      match jDictGet d "videos" (J.arr []) with
      | .error e => .error e
      | .ok videos =>
        match jIter videos with
        | .error e => .error e
        | .ok items =>
          match seqE youtubeEmbedEvent items with
          | .error e => .error e
          | .ok events =>
            match jDictGet d "text" (J.str result_str) with
            | .error e => .error e
            | .ok text => .ok (text, events)
  else if tool_name = "search_spotify" then
    match parsed with
    | none => .ok (J.str result_str, [])
    | some d =>
      match jDictGet d "results" (J.arr []) with
      | .error e => .error e
      | .ok items0 =>
        match jIter items0 with
        | .error e => .error e
        | .ok items =>
          match seqE spotifyEmbedEvent items with
          | .error e => .error e
          | .ok events =>
            match jDictGet d "text" (J.str result_str) with
            | .error e => .error e
            | .ok text => .ok (text, events)
  else .ok (J.str result_str, [])

/-- The keys of `tools_by_name` built in `tools/__init__.py` lines 12-14:
the declared name of every `@tool` in the `tools` list (langchain's `@tool`
uses the function name).  `search_spotify` (tools/spotify.py) is not
imported there and hence absent. -/
def tools_by_name : List String :=
  ["get_weather", "get_polymarket_opportunities", "get_arxiv_articles",
   "get_latest_photos", "post_tweet", "get_linear_issues",
   "get_mercury_balance", "get_subway_arrivals",
   "get_train_arrivals_at_station", "get_nearby_subway_stations",
   "get_nearby_subway_arrivals", "search_youtube_song", "exa_search",
   "exa_find_similar", "exa_answer"]

/-- A tool-call argument value: the embedding needs strings (locations) and
numbers (injected coordinates). -/
inductive Val where
  | s (v : String)
  | n (q : Rat)
deriving DecidableEq

/-- A Python argument dict, as an ordered association list. -/
abbrev Args := List (String × Val)

/-- One entry of `state["messages"][-1].tool_calls`. -/
structure ToolCall where
  name : String
  args : Args
  id : String

/-- The `ToolMessage(content=result_for_llm, tool_call_id=tool_call["id"])`
appended per invocation (graph.py lines 99-101). -/
structure ToolMessage where
  content : J
  tool_call_id : String

/-- graph.py line 55. -/
def NEAR_ME_KEYWORDS : List String :=
  ["me", "near me", "nearby", "my location", "current location", "here"]

/-- Python `str.lower()`: lower-case every character. -/
def pyLower (s : String) : String := ⟨s.toList.map Char.toLower⟩

/-- Python `str.strip()`: drop whitespace from both ends. -/
def pyStrip (s : String) : String :=
  ⟨((s.toList.dropWhile Char.isWhitespace).reverse.dropWhile
      Char.isWhitespace).reverse⟩

/-- `tool_args.get("location", "").lower().strip() in NEAR_ME_KEYWORDS`
(graph.py lines 70-71 and 76-77).  A missing key defaults to `""`, which is
not a keyword; a numeric value raises `AttributeError` at `.lower()`. -/
def locationIsNearMe (args : Args) : Except PyErr Bool :=
  match assocGet? args "location" with
  | none => .ok false
  | some (.s v) => .ok (pyStrip (pyLower v) ∈ NEAR_ME_KEYWORDS)
  | some (.n _) => .error (.attributeError "lower")

/-- Python `d[k] = v` on a dict: replace the binding if the key exists
(keys of a Python dict are unique, so replacing the first match is
faithful), otherwise append it (insertion order). -/
def dictSet : Args → String → Val → Args
  | [], k, v => [(k, v)]
  | (k', w) :: rest, k, v =>
    if k' = k then (k, v) :: rest else (k', w) :: dictSet rest k v

/-- `tool_args["user_lat"] = user_location["lat"]; tool_args["user_lon"] =
user_location["lon"]` when `user_location` is truthy, else no change
(graph.py lines 71-73 and 77-79). -/
def injectCoords (args : Args) (uloc : Option (Rat × Rat)) : Args :=
  match uloc with
  | some (la, lo) => dictSet (dictSet args "user_lat" (.n la)) "user_lon" (.n lo)
  | none => args

/-- The coordinate-injection prologue of the `tool_node` loop body
(graph.py lines 68-79).  The two `if` blocks of the source test disjoint
tool names, so they are rendered as an `if`/`else if` chain. -/
def injectUserLocation (uloc : Option (Rat × Rat)) (name : String)
    (args : Args) : Except PyErr Args :=
  if name = "get_nearby_subway_arrivals" ∨ name = "get_nearby_subway_stations" then
    match locationIsNearMe args with
    | .error e => .error e
    | .ok nearMe => .ok (if nearMe then injectCoords args uloc else args)
  else if name = "get_weather" then
    match locationIsNearMe args with
    | .error e => .error e
    | .ok nearMe => .ok (if nearMe then injectCoords args uloc else args)
  else .ok args

/-- One iteration of the `tool_node` loop (graph.py lines 64-101): copy and
possibly augment the arguments, look the tool up in `tools_by_name`
(`KeyError` when absent, line 87), execute it (`execTool` is the oracle for
the external call, `jsonLoads` the oracle for `json.loads` on its result),
and post-process. -/
def runCall (uloc : Option (Rat × Rat)) (execTool : String → Args → String)
    (jsonLoads : String → Option J) (c : ToolCall) : Except PyErr ToolMessage :=
  match injectUserLocation uloc c.name c.args with
  | .error e => .error e
  | .ok targs =>
    if c.name ∈ tools_by_name then
      match _post_process_tool_result c.name (jsonLoads (execTool c.name targs))
          (execTool c.name targs) with
      | .error e => .error e
      | .ok res => .ok ⟨res.1, c.id⟩
    else .error (.keyError c.name)

/-- graph.py lines 58-109, `tool_node`: process every requested invocation in
order, then return the tool messages and `iteration_count + 1` (one increment
per round, lines 103-108).  `.error` models an uncaught exception: the round
fails and LangGraph applies no state update. -/
def tool_node (uloc : Option (Rat × Rat)) (execTool : String → Args → String)
    (jsonLoads : String → Option J) (calls : List ToolCall)
    (iteration_count : Nat) : Except PyErr (List ToolMessage × Nat) :=
  match seqE (runCall uloc execTool jsonLoads) calls with
  | .error e => .error e
  | .ok results => .ok (results, iteration_count + 1)

/-- graph.py line 38. -/
def MAX_ITERATIONS : Nat := 5

/-- The nodes of the compiled graph (graph.py lines 265-297), plus a
`done` pseudo-node for `END`. -/
inductive GNode where
  | chatbot
  | tool_node
  | post_processor
  | formatter
  | done
deriving DecidableEq

/-- The orchestration state, abstracted to what routing depends on:
the current node, `iteration_count`, whether the last message carries
pending `tool_calls`, and a ghost counter of completed tool rounds. -/
structure GState where
  node : GNode
  iteration_count : Nat
  lastHasToolCalls : Bool
  rounds : Nat
deriving DecidableEq

/-- graph.py lines 249-254, `route_from_chatbot`. -/
def route_from_chatbot (lastHasToolCalls : Bool) : GNode :=
  if lastHasToolCalls then .tool_node else .post_processor

/-- The routing-relevant content of `post_processor` (graph.py lines
150-206): the `should_continue` flag it writes.  The ceiling guard (line
159) is checked first; then the pending-tool-calls branch (line 170); the
LLM evaluation outcome (`"CONTINUE" in eval_result.content.upper()`, line
197) enters as the oracle `evalContinue`. -/
def post_processor_decision (iteration_count : Nat) (lastHasToolCalls : Bool)
    (evalContinue : Bool) : Bool :=
  if MAX_ITERATIONS ≤ iteration_count then false
  else if lastHasToolCalls then true
  else evalContinue

/-- graph.py lines 257-262, `route_from_post_processor`. -/
def route_from_post_processor (should_continue : Bool) : GNode :=
  if should_continue then .chatbot else .formatter

/-- Small-step transition relation of the compiled graph (graph.py lines
274-295).  The chatbot's LLM response (`tc`: does it request tools?) and the
post-processor's evaluation LLM verdict (`ev`) are nondeterministic oracles.
`tool_node` appends only `ToolMessage`s, which carry no `tool_calls`
attribute, so after it the last message has none; it bumps
`iteration_count` by one (lines 103-108) and completes one round. -/
inductive GStep : GState → GState → Prop where
  | chatbot_step (s : GState) (tc : Bool) (h : s.node = .chatbot) :
      GStep s ⟨route_from_chatbot tc, s.iteration_count, tc, s.rounds⟩
  | tool_step (s : GState) (h : s.node = .tool_node) :
      GStep s ⟨.post_processor, s.iteration_count + 1, false, s.rounds + 1⟩
  | post_step (s : GState) (ev : Bool) (h : s.node = .post_processor) :
      GStep s ⟨route_from_post_processor
                 (post_processor_decision s.iteration_count s.lastHasToolCalls ev),
               s.iteration_count, s.lastHasToolCalls, s.rounds⟩
  | formatter_step (s : GState) (h : s.node = .formatter) :
      GStep s ⟨.done, s.iteration_count, s.lastHasToolCalls, s.rounds⟩

/-- Initial state: `START → chatbot` (graph.py line 275) with a fresh
conversation (`iteration_count` starts at 0, spec §3) and no completed
rounds. -/
def GInit : GState := ⟨.chatbot, 0, false, 0⟩

/-- States reachable in one conversation execution. -/
def GReachable (s : GState) : Prop := Relation.ReflTransGen GStep GInit s

/-- The inductive invariant of one execution: `iteration_count` counts the
completed tool rounds, and at the chatbot or at the tool node it is still
below the ceiling. -/
def GInv (s : GState) : Prop :=
  s.iteration_count = s.rounds ∧
  ((s.node = GNode.chatbot ∨ s.node = GNode.tool_node) →
    s.iteration_count < MAX_ITERATIONS)

lemma gstep_preserves : ∀ s t, GInv s → GStep s t → GInv t := by
  intro s t hs hstep
  cases hstep with
  | chatbot_step tc h =>
    refine ⟨hs.1, fun _ => ?_⟩
    exact hs.2 (Or.inl h)
  | tool_step h =>
    refine ⟨by simp [hs.1], fun hc => ?_⟩
    rcases hc with hc | hc <;> simp at hc
  | post_step ev h =>
    refine ⟨hs.1, fun hc => ?_⟩
    by_cases hlt : s.iteration_count < MAX_ITERATIONS
    · exact hlt
    · exfalso
      have hd : post_processor_decision s.iteration_count s.lastHasToolCalls ev = false := by
        unfold post_processor_decision
        rw [if_pos (Nat.le_of_not_lt hlt)]
      rw [hd] at hc
      simp [route_from_post_processor] at hc
  | formatter_step h =>
    refine ⟨hs.1, fun hc => ?_⟩
    rcases hc with hc | hc <;> simp at hc

lemma gstate_invariant : ∀ s, GReachable s → GInv s := by
  intro s h
  unfold GReachable at h
  induction h with
  | refl => exact ⟨rfl, fun _ => by decide⟩
  | tail _ hstep ih => exact gstep_preserves _ _ ih hstep

lemma seqE_error_of_mem {α β : Type} (f : α → Except PyErr β) (l : List α)
    (c : α) (hc : c ∈ l) (e : PyErr) (he : f c = .error e) :
    ∃ e', seqE f l = .error e' := by
  induction l with
  | nil => cases hc
  | cons a rest ih =>
    rcases List.mem_cons.mp hc with hca | hca
    · subst hca
      exact ⟨e, by simp [seqE, he]⟩
    · cases hfa : f a with
      | error e2 => exact ⟨e2, by simp [seqE, hfa]⟩
      | ok b =>
        obtain ⟨e', h'⟩ := ih hca
        exact ⟨e', by simp [seqE, hfa, h']⟩

lemma injectUserLocation_not_aware (uloc : Option (Rat × Rat)) (name : String)
    (args : Args) (h1 : name ≠ "get_nearby_subway_arrivals")
    (h2 : name ≠ "get_nearby_subway_stations") (h3 : name ≠ "get_weather") :
    injectUserLocation uloc name args = .ok args := by
  unfold injectUserLocation
  rw [if_neg (not_or.mpr ⟨h1, h2⟩), if_neg h3]

lemma mem_registry_subway_arrivals : "get_nearby_subway_arrivals" ∈ tools_by_name := by decide

lemma mem_registry_subway_stations : "get_nearby_subway_stations" ∈ tools_by_name := by decide

lemma mem_registry_weather : "get_weather" ∈ tools_by_name := by decide

lemma runCall_unregistered (uloc : Option (Rat × Rat))
    (execTool : String → Args → String) (jsonLoads : String → Option J)
    (c : ToolCall) (h : c.name ∉ tools_by_name) :
    runCall uloc execTool jsonLoads c = .error (.keyError c.name) := by
  have h1 : c.name ≠ "get_nearby_subway_arrivals" :=
    fun he => h (by rw [he]; exact mem_registry_subway_arrivals)
  have h2 : c.name ≠ "get_nearby_subway_stations" :=
    fun he => h (by rw [he]; exact mem_registry_subway_stations)
  have h3 : c.name ≠ "get_weather" :=
    fun he => h (by rw [he]; exact mem_registry_weather)
  unfold runCall
  rw [injectUserLocation_not_aware uloc c.name c.args h1 h2 h3]
  simp [h]

lemma assocGet?_dictSet_self (args : Args) (k : String) (v : Val) :
    assocGet? (dictSet args k v) k = some v := by
  induction args with
  | nil => simp [dictSet, assocGet?]
  | cons p rest ih =>
    obtain ⟨a, b⟩ := p
    by_cases hpk : a = k
    · subst hpk
      simp [dictSet, assocGet?]
    · simp [dictSet, assocGet?, hpk, ih]

lemma assocGet?_dictSet_ne (args : Args) (k : String) (v : Val) (k' : String)
    (h : k' ≠ k) :
    assocGet? (dictSet args k v) k' = assocGet? args k' := by
  have hkk' : ¬ k = k' := fun hh => h hh.symm
  induction args with
  | nil => simp [dictSet, assocGet?, hkk']
  | cons p rest ih =>
    obtain ⟨a, b⟩ := p
    by_cases hpk : a = k
    · subst hpk
      simp [dictSet, assocGet?, hkk']
    · simp [dictSet, assocGet?, hpk, ih]

lemma injectUserLocation_aware_near (uloc : Option (Rat × Rat)) (name : String)
    (args : Args) (loc : String)
    (hn : name = "get_nearby_subway_arrivals" ∨
          name = "get_nearby_subway_stations" ∨ name = "get_weather")
    (hloc : assocGet? args "location" = some (.s loc))
    (hnear : pyStrip (pyLower loc) ∈ NEAR_ME_KEYWORDS) :
    injectUserLocation uloc name args = .ok (injectCoords args uloc) := by
  have hlm : locationIsNearMe args = .ok true := by
    unfold locationIsNearMe
    rw [hloc]
    simp [hnear]
  unfold injectUserLocation
  rcases hn with h | h | h
  · rw [if_pos (Or.inl h), hlm]
    simp
  · rw [if_pos (Or.inr h), hlm]
    simp
  · have hna : ¬ (name = "get_nearby_subway_arrivals" ∨
        name = "get_nearby_subway_stations") := by
      rw [h]
      decide
    rw [if_neg hna, if_pos h, hlm]
    simp

/-- Modelled from the spec: the tool-result truncation limit of the most
advanced graph variant (spec §4.2 step 6: "4000 characters").  The variant's
`graph.py` is not part of the source tree; `tests/test_graph.py` imports
`MAX_TOOL_RESULT_LENGTH` from it. -/
def MAX_TOOL_RESULT_LENGTH : Nat := 4000

/-- Modelled from the spec: the visible truncation marker appended to
over-long tool results (spec §4.2 step 6; `tests/test_graph.py` asserts the
result ends with this text). -/
def TRUNCATION_MARKER : List Char := "[Result truncated]".toList

/-- Modelled from the spec: `_truncate` of the most advanced graph variant
(spec §4.2 step 6), absent from the source tree; only its tests
(`tests/test_graph.py` `TestTruncate`) are present.  Text at or below the
limit is unchanged; longer text is cut to exactly the limit with the marker
appended.  A Python `str` is modelled as a list of characters. -/
def _truncate (text : List Char) : List Char :=
  if MAX_TOOL_RESULT_LENGTH < text.length then
    text.take MAX_TOOL_RESULT_LENGTH ++ TRUNCATION_MARKER
  else text

/-- Modelled from the spec: the review-turn cap of the Quality Review Stage
(spec §4.5: "the configured cap (1, i.e. at most one extra pass)");
`tests/test_graph.py` imports `MAX_SUPERVISOR_TURNS` from the missing
advanced `graph.py`. -/
def MAX_SUPERVISOR_TURNS : Nat := 1

/-- Nodes of the most advanced graph variant (spec §4.5), modelled from the
spec and from the routing targets asserted in `tests/test_graph.py`. -/
inductive ANode where
  | preprocessor
  | chatbot
  | tool_node
  | supervisor
  | exit
  | done
deriving DecidableEq

/-- State of the advanced variant: node, tool-round counter, review-turn
counter and last review verdict (spec §3). -/
structure AState where
  node : ANode
  iteration_count : Nat
  supervisor_turns : Nat
  supervisor_decision : Option String
deriving DecidableEq

/-- Modelled from the spec: the `should_continue` router of the advanced
variant (spec §4.5 "From model" rules; behaviour pinned by
`tests/test_graph.py` `TestShouldContinue`): pending tool calls go to the
tool node unless the iteration ceiling is reached; otherwise a response
after at least one tool round goes to review while the review-turn cap is
not exceeded; everything else exits. -/
def should_continue (hasToolCalls : Bool) (iteration_count supervisor_turns : Nat) :
    ANode :=
  if hasToolCalls then
    if MAX_ITERATIONS ≤ iteration_count then .exit else .tool_node
  else if 0 < iteration_count ∧ supervisor_turns ≤ MAX_SUPERVISOR_TURNS then
    .supervisor
  else .exit

/-- Modelled from the spec: the `supervisor_should_continue` router of the
advanced variant (spec §4.5 "From review"; behaviour pinned by
`tests/test_graph.py` `TestSupervisorShouldContinue`): once the turns taken
exceed the cap, exit; else a "RETRY" verdict goes back to the model; else
exit. -/
def supervisor_should_continue (supervisor_turns : Nat)
    (supervisor_decision : Option String) : ANode :=
  if MAX_SUPERVISOR_TURNS < supervisor_turns then .exit
  else if supervisor_decision = some "RETRY" then .chatbot
  else .exit

/-- Modelled from the spec: small-step transitions of the advanced variant
(spec §4.5).  The model's choice to request tools (`tc`) and the review
verdict (`retry`) are nondeterministic oracles.  The supervisor increments
`supervisor_turns` by one per evaluation and records the verdict
(spec §4.4, `tests/test_graph.py` `TestSupervisor`); after tool execution
control always returns to the model. -/
inductive AStep : AState → AState → Prop where
  | preprocess_step (s : AState) (h : s.node = .preprocessor) :
      AStep s ⟨.chatbot, s.iteration_count, s.supervisor_turns, s.supervisor_decision⟩
  | model_step (s : AState) (tc : Bool) (h : s.node = .chatbot) :
      AStep s ⟨should_continue tc s.iteration_count s.supervisor_turns,
               s.iteration_count, s.supervisor_turns, s.supervisor_decision⟩
  | tools_step (s : AState) (h : s.node = .tool_node) :
      AStep s ⟨.chatbot, s.iteration_count + 1, s.supervisor_turns, s.supervisor_decision⟩
  | review_step (s : AState) (retry : Bool) (h : s.node = .supervisor) :
      AStep s ⟨supervisor_should_continue (s.supervisor_turns + 1)
                 (some (if retry then "RETRY" else "PASS")),
               s.iteration_count, s.supervisor_turns + 1,
               some (if retry then "RETRY" else "PASS")⟩
  | leave_step (s : AState) (h : s.node = .exit) :
      AStep s ⟨.done, s.iteration_count, s.supervisor_turns, s.supervisor_decision⟩

/-- Initial state of one execution of the advanced variant: counters zeroed
(spec §3 lifecycle). -/
def AInit : AState := ⟨.preprocessor, 0, 0, none⟩

/-- States reachable in one execution of the advanced variant. -/
def AReachable (s : AState) : Prop := Relation.ReflTransGen AStep AInit s

/-- Invariant of the advanced variant: the review counter equals the number
of review evaluations performed, never exceeds cap + 1, and the review stage
is only ever entered with the counter at or below the cap. -/
def AInv (s : AState) : Prop :=
  s.supervisor_turns ≤ MAX_SUPERVISOR_TURNS + 1 ∧
  (s.node = ANode.supervisor → s.supervisor_turns ≤ MAX_SUPERVISOR_TURNS)

lemma astep_preserves : ∀ s t, AInv s → AStep s t → AInv t := by
  intro s t hs hstep
  cases hstep with
  | preprocess_step h => exact ⟨hs.1, by simp⟩
  | model_step tc h =>
    refine ⟨hs.1, fun hc => ?_⟩
    by_cases hcap : s.supervisor_turns ≤ MAX_SUPERVISOR_TURNS
    · exact hcap
    · exfalso
      unfold should_continue at hc
      by_cases htc : tc
      · rw [if_pos htc] at hc
        by_cases hit : MAX_ITERATIONS ≤ s.iteration_count
        · rw [if_pos hit] at hc
          simp at hc
        · rw [if_neg hit] at hc
          simp at hc
      · rw [if_neg htc] at hc
        have hand : ¬ (0 < s.iteration_count ∧
            s.supervisor_turns ≤ MAX_SUPERVISOR_TURNS) := fun hh => hcap hh.2
        rw [if_neg hand] at hc
        simp at hc
  | tools_step h => exact ⟨hs.1, by simp⟩
  | review_step retry h =>
    have hcap := hs.2 h
    refine ⟨Nat.succ_le_succ hcap, fun hc => ?_⟩
    exfalso
    unfold supervisor_should_continue at hc
    by_cases hgt : MAX_SUPERVISOR_TURNS < s.supervisor_turns + 1
    · rw [if_pos hgt] at hc
      simp at hc
    · rw [if_neg hgt] at hc
      by_cases hd : (some (if retry then "RETRY" else "PASS") : Option String) = some "RETRY"
      · rw [if_pos hd] at hc
        simp at hc
      · rw [if_neg hd] at hc
        simp at hc
  | leave_step h => exact ⟨hs.1, by simp⟩

lemma astate_invariant : ∀ s, AReachable s → AInv s := by
  intro s h
  unfold AReachable at h
  induction h with
  | refl => exact ⟨by decide, by decide⟩
  | tail _ hstep ih => exact astep_preserves _ _ ih hstep

/-- The role tag of a conversation message. -/
inductive Role where
  | system
  | user
  | assistant
  | tool
deriving DecidableEq

/-- A conversation message, reduced to role and content. -/
structure Msg where
  role : Role
  content : String
deriving DecidableEq

/-- Modelled from the spec: the fixed system directive of the advanced
variant (spec §4.3); its exact text is not in the source tree —
`tests/test_graph.py` imports `SYSTEM_PROMPT` from the missing `graph.py`. -/
def SYSTEM_PROMPT : String :=
  "You are a helpful assistant for the zelfhosted app."

/-- The system-directive message. -/
def systemDirectiveMsg : Msg := ⟨.system, SYSTEM_PROMPT⟩

/-- Modelled from the spec: the lazy prepend performed by the Model
Invocation Stage of the advanced variant (spec §4.3: "if the first message
is not the fixed system directive, prepend it"), absent from the source
tree; `tests/test_graph.py` `TestChatbot` pins the behaviour. -/
def withSystemPrompt (msgs : List Msg) : List Msg :=
  match msgs with
  | [] => [systemDirectiveMsg]
  | m :: _ => if m = systemDirectiveMsg then msgs else systemDirectiveMsg :: msgs

/-- C1: in every execution, `iteration_count` equals the number of completed
tool-execution rounds (`tool_node` adds exactly 1 per round, regardless of
how many invocations the round contains), and the machine never enters the
tool-execution stage once `iteration_count` has reached `MAX_ITERATIONS`:
the route out of the chatbot does not test the ceiling, but the
post-processor guard makes such entry unreachable. -/
theorem iteration_counts_tool_rounds :
    (∀ s, GReachable s → s.iteration_count = s.rounds ∧
      (s.node = GNode.tool_node → s.iteration_count < MAX_ITERATIONS)) ∧
    (∀ (uloc : Option (Rat × Rat)) (execTool : String → Args → String)
       (jsonLoads : String → Option J) (calls : List ToolCall) (n : Nat)
       (res : List ToolMessage × Nat),
      tool_node uloc execTool jsonLoads calls n = Except.ok res →
      res.2 = n + 1) := by
  constructor
  · intro s h
    have hi := gstate_invariant s h
    exact ⟨hi.1, fun hn => hi.2 (Or.inr hn)⟩
  · intro uloc execTool jsonLoads calls n res h
    unfold tool_node at h
    cases hseq : seqE (runCall uloc execTool jsonLoads) calls with
    | error e => rw [hseq] at h; cases h
    | ok results => rw [hseq] at h; cases h; rfl

/-- Witness for C1 at concrete inputs: the initial state, and a two-call
round that bumps the counter from 3 to 4. -/
theorem iteration_counts_tool_rounds_witness :
    GInit.iteration_count = GInit.rounds ∧
    tool_node none (fun _ _ => "ok") (fun _ => none)
      [⟨"get_weather", [], "a"⟩, ⟨"post_tweet", [], "b"⟩] 3 =
      Except.ok ([⟨J.str "ok", "a"⟩, ⟨J.str "ok", "b"⟩], 4) ∧
    (([⟨J.str "ok", "a"⟩, ⟨J.str "ok", "b"⟩], 4) :
      List ToolMessage × Nat).2 = 3 + 1 := by
  refine ⟨(iteration_counts_tool_rounds.1 GInit Relation.ReflTransGen.refl).1, rfl, ?_⟩
  exact iteration_counts_tool_rounds.2 none (fun _ _ => "ok") (fun _ => none)
    [⟨"get_weather", [], "a"⟩, ⟨"post_tweet", [], "b"⟩] 3 _ rfl

/-- C2 counterexample: a reachable execution in which the state entered
immediately after a tool-execution round is the post-processor, not the
model stage, and the very next state after that is the formatter — so the
formatting path is reached directly after tool execution with no further
model pass. -/
theorem c2_tool_round_to_formatter_trace :
    GReachable ⟨GNode.tool_node, 0, true, 0⟩ ∧
    GStep ⟨GNode.tool_node, 0, true, 0⟩ ⟨GNode.post_processor, 1, false, 1⟩ ∧
    GNode.post_processor ≠ GNode.chatbot ∧
    GStep ⟨GNode.post_processor, 1, false, 1⟩ ⟨GNode.formatter, 1, false, 1⟩ ∧
    GNode.formatter ≠ GNode.chatbot := by
  refine ⟨?_, ?_, by decide, ?_, by decide⟩
  · exact Relation.ReflTransGen.single (GStep.chatbot_step GInit true rfl)
  · exact GStep.tool_step _ rfl
  · exact GStep.post_step _ false rfl

/-- C2 amended: the stage entered immediately after a tool-execution round
is always the post-processor evaluation gate (never directly the model and
never directly the formatter); the gate may then route either back to the
model or on to the formatter. -/
theorem after_tool_round_comes_post_processor (s t : GState)
    (h : s.node = GNode.tool_node) (hstep : GStep s t) :
    t.node = GNode.post_processor := by
  cases hstep with
  | chatbot_step tc hc => simp [hc] at h
  | tool_step hc => rfl
  | post_step ev hc => simp [hc] at h
  | formatter_step hc => simp [hc] at h

/-- Witness for the amended C2 at a concrete step. -/
theorem after_tool_round_comes_post_processor_witness :
    (⟨GNode.post_processor, 1, false, 1⟩ : GState).node = GNode.post_processor :=
  after_tool_round_comes_post_processor ⟨GNode.tool_node, 0, true, 0⟩ _ rfl
    (GStep.tool_step _ rfl)

/-- C3 (spec-modelled): the review loop of the advanced variant is bounded
independently of `iteration_count`: the review-turn counter never exceeds
`MAX_SUPERVISOR_TURNS + 1` (at most 2 evaluations in total), the review
stage is never entered with the counter above the cap, and once the turns
taken exceed the cap the router forces the exit node instead of the model. -/
theorem review_loop_bounded :
    (∀ s, AReachable s →
      s.supervisor_turns ≤ MAX_SUPERVISOR_TURNS + 1 ∧
      (s.node = ANode.supervisor → s.supervisor_turns ≤ MAX_SUPERVISOR_TURNS)) ∧
    (∀ (turns : Nat) (d : Option String), MAX_SUPERVISOR_TURNS < turns →
      supervisor_should_continue turns d = ANode.exit) := by
  constructor
  · intro s h
    exact astate_invariant s h
  · intro turns d hgt
    unfold supervisor_should_continue
    rw [if_pos hgt]

/-- Witness for C3 at concrete inputs: the initial state, and the router at
2 turns with a "RETRY" verdict. -/
theorem review_loop_bounded_witness :
    AInit.supervisor_turns ≤ MAX_SUPERVISOR_TURNS + 1 ∧
    supervisor_should_continue 2 (some "RETRY") = ANode.exit :=
  ⟨(review_loop_bounded.1 AInit Relation.ReflTransGen.refl).1,
   review_loop_bounded.2 2 (some "RETRY") (by decide)⟩

/-- C4 (spec-modelled): tool-result text at or below the 4000-character
limit is returned unchanged; longer text is cut so the pre-marker content is
exactly the limit length, with the marker appended, making the returned
length exceed the limit. -/
theorem truncate_bounds (text : List Char) :
    (text.length ≤ MAX_TOOL_RESULT_LENGTH → _truncate text = text) ∧
    (MAX_TOOL_RESULT_LENGTH < text.length →
      _truncate text = text.take MAX_TOOL_RESULT_LENGTH ++ TRUNCATION_MARKER ∧
      (text.take MAX_TOOL_RESULT_LENGTH).length = MAX_TOOL_RESULT_LENGTH ∧
      MAX_TOOL_RESULT_LENGTH < (_truncate text).length) := by
  constructor
  · intro hle
    unfold _truncate
    rw [if_neg (Nat.not_lt.mpr hle)]
  · intro hgt
    have heq : _truncate text =
        text.take MAX_TOOL_RESULT_LENGTH ++ TRUNCATION_MARKER := by
      unfold _truncate
      rw [if_pos hgt]
    refine ⟨heq, ?_, ?_⟩
    · rw [List.length_take]
      exact Nat.min_eq_left (Nat.le_of_lt hgt)
    · rw [heq, List.length_append, List.length_take,
        Nat.min_eq_left (Nat.le_of_lt hgt)]
      have hm : 0 < TRUNCATION_MARKER.length := by decide
      omega

/-- Witness for C4 at concrete inputs: a short text and a 4001-character
text. -/
theorem truncate_bounds_witness :
    _truncate "ok".toList = "ok".toList ∧
    _truncate (List.replicate 4001 'a') =
      (List.replicate 4001 'a').take MAX_TOOL_RESULT_LENGTH ++ TRUNCATION_MARKER := by
  constructor
  · exact (truncate_bounds "ok".toList).1 (by decide)
  · exact ((truncate_bounds (List.replicate 4001 'a')).2
      (by norm_num [MAX_TOOL_RESULT_LENGTH])).1

/-- C5 failing input, evaluated: on a YouTube payload that carries an
`error` field, `_post_process_tool_result` returns the `text` field
("Found 0 videos") and ignores the `error` field ("No results found"),
contradicting the repository's own test
`test_youtube_error_returns_error_text`. -/
theorem youtube_error_field_ignored :
    _post_process_tool_result "search_youtube_song"
      (some (J.obj [("videos", J.arr []),
                    ("text", J.str "Found 0 videos"),
                    ("error", J.str "No results found")]))
      "\x7b\"videos\": [], \"text\": \"Found 0 videos\", \"error\": \"No results found\"\x7d" =
      Except.ok (J.str "Found 0 videos", []) := rfl

/-- C6 counterexample: a media-tool payload that parses as JSON but is not
an object ("[1, 2]") makes post-processing raise (`.get` on a Python list
is an `AttributeError`), so post-processing is not total on every payload
that fails to parse into the expected shape. -/
theorem media_nonobject_payload_raises :
    _post_process_tool_result "search_youtube_song"
      (some (J.arr [J.num 1, J.num 2])) "[1, 2]" =
      Except.error (PyErr.attributeError "get") := rfl

/-- C6 amended: for every tool result whose text fails JSON parsing
(`json.JSONDecodeError`), post-processing is total and non-fatal: it returns
the original raw text unchanged and emits zero embed events. -/
theorem parse_failure_passes_raw_through (tool_name raw : String) :
    _post_process_tool_result tool_name none raw = Except.ok (J.str raw, []) := by
  unfold _post_process_tool_result
  by_cases h1 : tool_name = "search_youtube_song"
  · rw [if_pos h1]
  · rw [if_neg h1]
    by_cases h2 : tool_name = "search_spotify"
    · rw [if_pos h2]
    · rw [if_neg h2]

/-- C7: a model-requested invocation naming a tool absent from
`tools_by_name` makes the whole round fail with a propagated `KeyError`
(never tool-result text): for a single such call the error is exactly
`KeyError(name)`, and for any round containing such a call the round's
result is an error, so no tool messages are appended and `iteration_count`
is not incremented (a raising LangGraph node yields no state update). -/
theorem unknown_tool_aborts_round :
    ∀ (uloc : Option (Rat × Rat)) (execTool : String → Args → String)
      (jsonLoads : String → Option J) (n : Nat),
      (∀ c : ToolCall, c.name ∉ tools_by_name →
        tool_node uloc execTool jsonLoads [c] n =
          Except.error (PyErr.keyError c.name)) ∧
      (∀ (calls : List ToolCall) (c : ToolCall), c ∈ calls →
        c.name ∉ tools_by_name →
        ∃ e, tool_node uloc execTool jsonLoads calls n = Except.error e) := by
  intro uloc execTool jsonLoads n
  constructor
  · intro c hc
    have hr := runCall_unregistered uloc execTool jsonLoads c hc
    unfold tool_node
    simp [seqE, hr]
  · intro calls c hmem hc
    have hr := runCall_unregistered uloc execTool jsonLoads c hc
    obtain ⟨e', he'⟩ :=
      seqE_error_of_mem (runCall uloc execTool jsonLoads) calls c hmem _ hr
    refine ⟨e', ?_⟩
    unfold tool_node
    rw [he']

/-- Witness for C7 at a concrete unregistered tool name. -/
theorem unknown_tool_aborts_round_witness :
    tool_node none (fun _ _ => "r") (fun _ => none)
      [⟨"get_stock_price", [], "x"⟩] 2 =
      Except.error (PyErr.keyError "get_stock_price") :=
  (unknown_tool_aborts_round none (fun _ _ => "r") (fun _ => none) 2).1
    ⟨"get_stock_price", [], "x"⟩ (by decide)

/-- C8: for a location-aware tool whose `location` argument, lower-cased and
trimmed, is one of the near-me sentinels: with a user location present the
executed argument mapping carries the injected coordinates under `user_lat`
and `user_lon`; with it absent the mapping is left untouched, so no
injection keys appear when the original mapping had none. -/
theorem near_me_location_injection :
    ∀ (name : String) (args : Args) (loc : String) (la lo : Rat),
      (name = "get_nearby_subway_arrivals" ∨
       name = "get_nearby_subway_stations" ∨ name = "get_weather") →
      assocGet? args "location" = some (Val.s loc) →
      pyStrip (pyLower loc) ∈ NEAR_ME_KEYWORDS →
      (∃ args2, injectUserLocation (some (la, lo)) name args = .ok args2 ∧
        assocGet? args2 "user_lat" = some (Val.n la) ∧
        assocGet? args2 "user_lon" = some (Val.n lo)) ∧
      injectUserLocation none name args = .ok args ∧
      (assocGet? args "user_lat" = none → assocGet? args "user_lon" = none →
        ∃ args3, injectUserLocation none name args = .ok args3 ∧
          assocGet? args3 "user_lat" = none ∧
          assocGet? args3 "user_lon" = none) := by
  intro name args loc la lo hn hloc hnear
  have hsome := injectUserLocation_aware_near (some (la, lo)) name args loc hn hloc hnear
  have hnone := injectUserLocation_aware_near none name args loc hn hloc hnear
  refine ⟨⟨injectCoords args (some (la, lo)), hsome, ?_, ?_⟩, hnone, ?_⟩
  · show assocGet?
      (dictSet (dictSet args "user_lat" (Val.n la)) "user_lon" (Val.n lo))
      "user_lat" = some (Val.n la)
    rw [assocGet?_dictSet_ne _ _ _ _ (by decide)]
    exact assocGet?_dictSet_self args "user_lat" (Val.n la)
  · show assocGet?
      (dictSet (dictSet args "user_lat" (Val.n la)) "user_lon" (Val.n lo))
      "user_lon" = some (Val.n lo)
    exact assocGet?_dictSet_self _ "user_lon" (Val.n lo)
  · intro hlat hlon
    exact ⟨args, hnone, hlat, hlon⟩

/-- Witness for C8 at a concrete call: `get_weather` with
`location="near me"`, with and without a user location. -/
theorem near_me_location_injection_witness :
    (∃ args2, injectUserLocation (some ((40 : Rat), (-74 : Rat))) "get_weather"
        [("location", Val.s "near me")] = .ok args2 ∧
      assocGet? args2 "user_lat" = some (Val.n 40) ∧
      assocGet? args2 "user_lon" = some (Val.n (-74))) ∧
    injectUserLocation none "get_weather" [("location", Val.s "near me")] =
      .ok [("location", Val.s "near me")] := by
  have h := near_me_location_injection "get_weather"
    [("location", Val.s "near me")] "near me" 40 (-74)
    (Or.inr (Or.inr rfl)) rfl (by decide)
  exact ⟨h.1, h.2.1⟩

/-- C9 (spec-modelled): the lazy prepend of the fixed system directive is
idempotent, always leaves the directive as the first message, and yields a
message sequence containing the directive exactly once whenever the
incoming history does not already contain it — so across any number of
model-invocation rounds (which append only non-system messages) the model
sees the directive exactly once, first. -/
theorem system_directive_once :
    (∀ msgs, withSystemPrompt (withSystemPrompt msgs) = withSystemPrompt msgs) ∧
    (∀ msgs, (withSystemPrompt msgs).head? = some systemDirectiveMsg) ∧
    (∀ msgs, systemDirectiveMsg ∉ msgs →
      (withSystemPrompt msgs).count systemDirectiveMsg = 1) := by
  refine ⟨?_, ?_, ?_⟩
  · intro msgs
    cases msgs with
    | nil => simp [withSystemPrompt]
    | cons m rest =>
      by_cases hm : m = systemDirectiveMsg
      · simp [withSystemPrompt, hm]
      · simp [withSystemPrompt, hm]
  · intro msgs
    cases msgs with
    | nil => rfl
    | cons m rest =>
      by_cases hm : m = systemDirectiveMsg
      · simp [withSystemPrompt, hm]
      · simp [withSystemPrompt, hm]
  · intro msgs hnot
    cases msgs with
    | nil => simp [withSystemPrompt]
    | cons m rest =>
      have hm : m ≠ systemDirectiveMsg := by
        intro h
        exact hnot (by simp [h])
      have hnm : systemDirectiveMsg ∉ m :: rest := hnot
      simp only [withSystemPrompt]
      rw [if_neg hm, List.count_cons_self, List.count_eq_zero_of_not_mem hnm]

/-- Witness for C9 at a concrete one-message history. -/
theorem system_directive_once_witness :
    (withSystemPrompt [⟨Role.user, "hi"⟩]).count systemDirectiveMsg = 1 :=
  system_directive_once.2.2 [⟨Role.user, "hi"⟩] (by decide)

/-- C10: the registry built by `tools/__init__.py` does not contain
`search_spotify`; hence every call naming it fails the registry lookup with
`KeyError("search_spotify")` before any post-processing, so the
spotify-embed branch is unreachable through the registry, and any round
containing such a call errors out. -/
theorem spotify_not_in_registry :
    "search_spotify" ∉ tools_by_name ∧
    (∀ (uloc : Option (Rat × Rat)) (execTool : String → Args → String)
       (jsonLoads : String → Option J) (c : ToolCall),
       c.name = "search_spotify" →
       runCall uloc execTool jsonLoads c =
         Except.error (PyErr.keyError "search_spotify")) ∧
    (∀ (uloc : Option (Rat × Rat)) (execTool : String → Args → String)
       (jsonLoads : String → Option J) (calls : List ToolCall) (n : Nat),
       (∃ c ∈ calls, c.name = "search_spotify") →
       ∃ e, tool_node uloc execTool jsonLoads calls n = Except.error e) := by
  have habs : "search_spotify" ∉ tools_by_name := by decide
  refine ⟨habs, ?_, ?_⟩
  · intro uloc execTool jsonLoads c hname
    have hc : c.name ∉ tools_by_name := by rw [hname]; exact habs
    have hr := runCall_unregistered uloc execTool jsonLoads c hc
    rw [hname] at hr
    exact hr
  · rintro uloc execTool jsonLoads calls n ⟨c, hmem, hname⟩
    have hc : c.name ∉ tools_by_name := by rw [hname]; exact habs
    obtain ⟨e', he'⟩ := seqE_error_of_mem (runCall uloc execTool jsonLoads)
      calls c hmem _ (runCall_unregistered uloc execTool jsonLoads c hc)
    refine ⟨e', ?_⟩
    unfold tool_node
    rw [he']

/-- Witness for C10 at a concrete `search_spotify` call. -/
theorem spotify_not_in_registry_witness :
    runCall none (fun _ _ => "r") (fun _ => none) ⟨"search_spotify", [], "c1"⟩ =
      Except.error (PyErr.keyError "search_spotify") :=
  spotify_not_in_registry.2.1 none (fun _ _ => "r") (fun _ => none)
    ⟨"search_spotify", [], "c1"⟩ rfl
